import Mathlib

/-!
Verification of the multisma2 collection engine against its specification.

The development shallowly embeds the parts of the source that the checked
properties talk about:

* `sma.py`        : the device session client (`_fetch_json`, `_read_body`,
                    `new_session`, `close_session`);
* `inverter.py`   : the per-device agent (`clean`, `read_instantaneous`,
                    `read_history`, `read_inverter_production`,
                    `start_production`, `lookup_tag`);
* `pvsite.py`     : the site aggregator (`start`, `scheduler`,
                    `update_total_production`, `co2_avoided`,
                    `inverter_efficiency`).

Python dicts are modelled as association lists with unique keys, Python
numbers (ints and floats) as `Int` or `Rat`, raised exceptions as `Option`
or `Except` results, and `asyncio` calls as explicit arguments carrying the
value the awaited call would produce.
-/

/-- Python dict read `d[k]` / `d.get(k)`: the value stored under the first
occurrence of key `k`, if any. -/
def dget {α : Type} : List (String × α) → String → Option α
  | [], _ => none
  | kv :: rest, k => if kv.1 = k then some kv.2 else dget rest k

/-- Python dict write `d[k] = v`: replace the value under an existing key in
place (Python dicts keep the original insertion position) or append a new
binding at the end. -/
def dset {α : Type} : List (String × α) → String → α → List (String × α)
  | [], k, v => [(k, v)]
  | kv :: rest, k, v => if kv.1 = k then (k, v) :: rest else kv :: dset rest k v

theorem dget_dset_self {α : Type} (d : List (String × α)) (k : String) (v : α) :
    dget (dset d k v) k = some v := by
  induction d with
  | nil => simp [dget, dset]
  | cons kv rest ih =>
    by_cases h : kv.1 = k
    · simp [dget, dset, h]
    · simp [dget, dset, h, ih]

theorem dget_dset_ne {α : Type} (d : List (String × α)) (k k2 : String) (v : α)
    (h : k2 ≠ k) : dget (dset d k v) k2 = dget d k2 := by
  have h2 : ¬(k = k2) := fun hh => h hh.symm
  induction d with
  | nil => simp [dget, dset, h2]
  | cons kv rest ih =>
    by_cases hk : kv.1 = k
    · simp [dget, dset, hk, h2]
    · by_cases hk2 : kv.1 = k2
      · simp [dget, dset, hk, hk2, h]
      · simp [dget, dset, hk, hk2, ih]

theorem dset_of_dget_none {α : Type} (d : List (String × α)) (k : String) (v : α)
    (h : dget d k = none) : dset d k v = d ++ [(k, v)] := by
  induction d with
  | nil => simp [dset]
  | cons kv rest ih =>
    by_cases hk : kv.1 = k
    · simp [dget, hk] at h
    · simp [dget, hk] at h
      simp [dset, hk, ih h]

/-- Floor of a rational. -/
def ratFloor (q : ℚ) : ℤ := ⌊q⌋

/-- Python `round` to an integer: round half to even (banker rounding). -/
def pyRoundInt (q : ℚ) : ℤ :=
  let f := ratFloor q
  let r := q - (f : ℚ)
  if r < 1/2 then f
  else if r > 1/2 then f + 1
  else if f % 2 = 0 then f else f + 1

/-- Python `round(q, n)` for a non-negative digit count `n`. -/
def pyRound (q : ℚ) (n : ℕ) : ℚ := (pyRoundInt (q * (10 : ℚ) ^ n) : ℚ) / (10 : ℚ) ^ n

/-- Python `int(q)`: truncation toward zero. -/
def pyInt (q : ℚ) : ℤ := if 0 ≤ q then ratFloor q else -(ratFloor (-q))

/-! ## sma.py — the device session client -/

/-- Enumeration of `SmaException` from `exceptions.py`. -/
inductive SmaException where
  | PASSWORD_REQUIRED
  | PASSWORD_TOO_LONG
  | BAD_USER_TYPE
  | NO_SESSION
  | ERR_RETURNED
  | NO_RESULT
  | UNEXPECTED_BODY
  | SESSION_ID_EXPECTED
  | MAX_SESSIONS
  | START_SESSION
deriving Repr, DecidableEq

/-- The `e.name` string of an `SmaException` member. -/
def smaExceptionName : SmaException → String
  | SmaException.PASSWORD_REQUIRED => "PASSWORD_REQUIRED"
  | SmaException.PASSWORD_TOO_LONG => "PASSWORD_TOO_LONG"
  | SmaException.BAD_USER_TYPE => "BAD_USER_TYPE"
  | SmaException.NO_SESSION => "NO_SESSION"
  | SmaException.ERR_RETURNED => "ERR_RETURNED"
  | SmaException.NO_RESULT => "NO_RESULT"
  | SmaException.UNEXPECTED_BODY => "UNEXPECTED_BODY"
  | SmaException.SESSION_ID_EXPECTED => "SESSION_ID_EXPECTED"
  | SmaException.MAX_SESSIONS => "MAX_SESSIONS"
  | SmaException.START_SESSION => "START_SESSION"

/-- A parsed JSON reply body, generic in the payload type `π` stored under a
device id inside the `result` object.  `err` is the optional top-level error
field, `result` the optional `result` object (a dict keyed by device id), and
`sid` models the value that `jmespath.search` with pattern `result.sid` would
extract from a login reply. -/
structure SmaBody (π : Type) where
  err : Option String
  result : Option (List (String × π))
  sid : Option String
deriving Repr, DecidableEq

/-- Number of transport attempts made by `SMA._fetch_json`
(`for _ in range(3)`). -/
def fetchAttempts : ℕ := 3

/-- Per-attempt timeout in seconds used by `SMA._fetch_json`
(`async_timeout.timeout(3)`). -/
def fetchTimeoutSeconds : ℕ := 3

/-- The connectivity-error body `_fetch_json` returns once every attempt has
failed. -/
def connectMessage (url : String) : String :=
  "Could not connect to SMA at " ++ url ++ " (timeout)"

/-- Retry loop of `SMA._fetch_json`.  `transport i` is the outcome of attempt
number `i`: `none` models `asyncio.TimeoutError` or an `aiohttp` client error
(the `except ... continue` branch), `some b` a reply that parsed to body `b`
(a falsy `res.json()` is replaced by the empty dict before `_fetch_json`
returns, so a reply is always a body).  The second component counts the
attempts actually made. -/
def fetchJsonGo {π : Type} (transport : ℕ → Option (SmaBody π)) (url : String) :
    ℕ → ℕ → SmaBody π × ℕ
  | _, 0 => (⟨some (connectMessage url), none, none⟩, 0)
  | i, n + 1 =>
    match transport i with
    | some b => (b, 1)
    | none =>
      let r := fetchJsonGo transport url (i + 1) n
      (r.1, r.2 + 1)

/-- Model of `SMA._fetch_json`: up to `fetchAttempts` transport attempts,
returning the first successful body, or the connectivity-error body after the
last failure. -/
def fetch_json {π : Type} (transport : ℕ → Option (SmaBody π)) (url : String) :
    SmaBody π × ℕ :=
  fetchJsonGo transport url 0 fetchAttempts

/-- The mutable fields of an `SMA` object that the session protocol touches:
the stored session id, the discovered device unique id, and whether login
data is configured (`self._new_session_data is not None`). -/
structure SmaState where
  sma_sid : Option String
  sma_uid : Option String
  hasSessionData : Bool
deriving Repr, DecidableEq

/-- Model of `SMA.close_session`: a best-effort logout request followed by a
`finally` block that clears the stored session id.  When no session id is
stored the method does nothing, which leaves the id equal to `none` as well. -/
def close_session (s : SmaState) : SmaState :=
  ⟨none, s.sma_uid, s.hasSessionData⟩

/-- Model of `SMA.new_session` applied to the parsed login reply: the session
id is overwritten with whatever `result.sid` holds; a missing id is
classified through the `err` field (`503` means the session limit was
reached). -/
def new_session {π : Type} (s : SmaState) (loginBody : SmaBody π) :
    SmaState × Option SmaException :=
  let s1 : SmaState := ⟨loginBody.sid, s.sma_uid, s.hasSessionData⟩
  match loginBody.sid with
  | some _ => (s1, none)
  | none =>
    match loginBody.err with
    | some e =>
      (s1, some (if e = "503" then SmaException.MAX_SESSIONS
                 else SmaException.START_SESSION))
    | none => (s1, some SmaException.SESSION_ID_EXPECTED)

/-- Python `body["result"].pop(uid, None)`: the removed value together with
the remaining dict. -/
def dpop {α : Type} (d : List (String × α)) (k : String) :
    Option α × List (String × α) :=
  (dget d k, d.filter (fun kv => kv.1 ≠ k))

/-- Body handling shared by every request after the optional login pre-step
of `SMA._read_body` (line 79 onward): an explicit `err` field closes the
session and raises `ERR_RETURNED`; a missing `result` raises `NO_RESULT`; the
device unique id is discovered from the first `result` key on first use; the
payload is popped out and anything left over raises `UNEXPECTED_BODY`.  The
`Bool` component reports whether this call performed a login request. -/
def readBodyCore {π : Type} (s : SmaState) (didLogin : Bool) (body : SmaBody π) :
    SmaState × Bool × Except SmaException (Option π) :=
  match body.err with
  | some _ => (close_session s, didLogin, Except.error SmaException.ERR_RETURNED)
  | none =>
    match body.result with
    | none => (s, didLogin, Except.error SmaException.NO_RESULT)
    | some res =>
      let uid : Option String :=
        match s.sma_uid with
        | none => res.head?.map (fun kv => kv.1)
        | some u => some u
      let s2 : SmaState := ⟨s.sma_sid, uid, s.hasSessionData⟩
      let popped :=
        match uid with
        | none => ((none : Option π), res)
        | some u => dpop res u
      match popped.2, body.sid with
      | [], none => (s2, didLogin, Except.ok popped.1)
      | _, _ => (s2, didLogin, Except.error SmaException.UNEXPECTED_BODY)

/-- Model of `SMA._read_body`: lazily logs in when no session id is stored
and login data is configured (`loginBody` is the reply such a login request
would receive), then fetches the request body (`body` is the reply the main
request receives) and runs the shared body handling.  The `Bool` component
reports whether a login request was issued by this call. -/
def read_body {π : Type} (s : SmaState) (loginBody body : SmaBody π) :
    SmaState × Bool × Except SmaException (Option π) :=
  if s.sma_sid.isNone ∧ s.hasSessionData = true then
    match new_session s loginBody with
    | (s1, some e) => (s1, true, Except.error e)
    | (s1, none) =>
      if s1.sma_sid.isNone then (s1, true, Except.error SmaException.NO_SESSION)
      else readBodyCore s1 true body
  else readBodyCore s false body

/-! ## inverter.py — the per-device agent -/

/-- A single reported state inside a raw metric value: the optional `val`
field holds either a number or, for enumerated metrics, a list of records
each carrying an optional numeric `tag` code. -/
inductive StateVal where
  | num (q : ℚ)
  | tagList (codes : List (Option ℤ))
deriving Repr, DecidableEq

/-- One element of the list stored under the `"1"` field of a raw metric
value (`val` may be absent, which Python reads as `None`). -/
structure RawState where
  val : Option StateVal
deriving Repr, DecidableEq

/-- A raw metric value `{"1": [...]}`; a missing `"1"` field makes
`value.pop` return `None`. -/
structure RawEntry where
  one : Option (List RawState)
deriving Repr, DecidableEq

/-- A raw instantaneous payload: metric key to value.  A `none` value models
a falsy entry (`None` or the empty dict), which `clean` skips. -/
abbrev RawResults : Type := List (String × Option RawEntry)

/-- Metadata record for one key, with the fields the modelled operations
read (`Typ` and `Scale` of the `key → {Typ, Scale, DataFrmt, Unit, TagId}`
document). -/
structure SmaMetadata where
  Typ : Option ℤ
  Scale : Option ℚ
deriving Repr, DecidableEq

/-- The immutable per-device data `Inverter.clean` consults: the device
name, the metadata dictionary and the tag dictionary. -/
structure InverterInfo where
  name : String
  metadata : List (String × SmaMetadata)
  tags : List (String × String)
deriving Repr, DecidableEq

/-- Model of `Inverter.get_type`: `metadata.get(key, "???").get("Typ")`.
A missing key makes Python call `.get` on the string default, which raises,
so the outer `Option` is the exception and the inner one the `Typ` field. -/
def get_type (inv : InverterInfo) (key : String) : Option (Option ℤ) :=
  (dget inv.metadata key).map (fun m => m.Typ)

/-- Model of `Inverter.get_scale`: the `Scale` field when the key has
metadata, `None` otherwise. -/
def get_scale (inv : InverterInfo) (key : String) : Option ℚ :=
  (dget inv.metadata key).bind (fun m => m.Scale)

/-- Model of `Inverter.lookup_tag`: the tag dictionary entry under the
decimal string of the code, with `"???"` as the default. -/
def lookup_tag (inv : InverterInfo) (code : ℤ) : String :=
  (dget inv.tags (toString code)).getD "???"

/-- A cleaned metric value: a scalar, a per-phase dict (`{a, b, c}` plus the
device name for aggregate keys), a raw integer tag code, a string, or the
Python `None`. -/
inductive CleanVal where
  | num (q : ℚ)
  | phases (m : List (String × ℚ))
  | intv (i : ℤ)
  | str (s : String)
  | pynone
deriving Repr, DecidableEq

/-- Result of `Inverter.clean`: the per-key cleaned values (each modelling
the `{"val": ...}` record stored under the key) plus the `name` entry added
at the end. -/
structure Cleaned where
  entries : List (String × CleanVal)
  name : String
deriving Repr, DecidableEq

/-- Keys for which `inverter.py` computes a per-device aggregate
(`AGGREGATE_KEYS` at the top of `inverter.py`). -/
def INVERTER_AGGREGATE_KEYS : List String := ["6380_40251E00"]

/-- The `subkeys` list naming the phases in `Inverter.clean`. -/
def subkeys : List String := ["a", "b", "c"]

/-- Python `val *= scale` guarded by `if scale != 1`: a `None` scale passes
the guard and then raises on the multiplication. -/
def applyScale (scale : Option ℚ) (v : ℚ) : Option ℚ :=
  match scale with
  | none => none
  | some sc => some (if sc = 1 then v else v * sc)

/-- Loop body of the type-0 branch of `Inverter.clean`: walks the states,
treating a missing `val` as 0, scaling each value, accumulating the phase
dict and the total, and remembering the last scalar.  `none` models a raised
exception (a fourth phase overruns `subkeys`; a tag-list value or a missing
scale makes the arithmetic raise). -/
def cleanType0Go (scale : Option ℚ) :
    List RawState → ℕ → List (String × ℚ) → ℚ → ℚ →
    Option (List (String × ℚ) × ℚ × ℚ)
  | [], _, sensors, total, lastv => some (sensors, total, lastv)
  | st :: rest, idx, sensors, total, _ =>
    match subkeys.get? idx with
    | none => none
    | some sk =>
      let base : Option ℚ :=
        match st.val with
        | some (StateVal.num q) => some q
        | some (StateVal.tagList _) => none
        | none => some 0
      match base.bind (applyScale scale) with
      | none => none
      | some v => cleanType0Go scale rest (idx + 1) (dset sensors sk v) (total + v) v

/-- Type-0 branch of `Inverter.clean`: with more than one state the value
becomes the phase dict (extended with the device total under the device name
for aggregate keys), otherwise it stays the last scalar (0 when there are no
states). -/
def cleanType0 (invName : String) (aggregate : Bool) (scale : Option ℚ)
    (states : List RawState) : Option CleanVal :=
  match cleanType0Go scale states 0 [] 0 0 with
  | none => none
  | some (sensors, total, lastv) =>
    if states.length > 1 then
      some (CleanVal.phases (if aggregate then dset sensors invName total else sensors))
    else some (CleanVal.num lastv)

/-- Type-1 branch of `Inverter.clean`: only the first state is read
(`break`), and the stored value is `tag_list[0].get("tag")` — the raw code.
The outer `none` is a raised exception (a non-list `val` or an empty tag
list); the inner `none` means the loop body never ran (no states), so the
key is silently dropped. -/
def cleanType1 (states : List RawState) : Option (Option CleanVal) :=
  match states with
  | [] => some none
  | st :: _ =>
    match st.val with
    | none => none
    | some (StateVal.num _) => none
    | some (StateVal.tagList []) => none
    | some (StateVal.tagList (c :: _)) =>
      some (some (match c with
        | some code => CleanVal.intv code
        | none => CleanVal.pynone))

/-- Main loop of `Inverter.clean` over the raw payload items. -/
def cleanGo (inv : InverterInfo) :
    List (String × Option RawEntry) → List (String × CleanVal) →
    Option (List (String × CleanVal))
  | [], acc => some acc
  | (key, value) :: rest, acc =>
    match value with
    | none => cleanGo inv rest acc
    | some entry =>
      let aggregate := INVERTER_AGGREGATE_KEYS.contains key
      match get_type inv key with
      | none => none
      | some smaType =>
        let scale := get_scale inv key
        match entry.one with
        | none =>
          if smaType = some 0 ∨ smaType = some 1 then none
          else cleanGo inv rest acc
        | some states =>
          if smaType = some 0 then
            match cleanType0 inv.name aggregate scale states with
            | none => none
            | some v => cleanGo inv rest (dset acc key v)
          else if smaType = some 1 then
            match cleanType1 states with
            | none => none
            | some none => cleanGo inv rest acc
            | some (some v) => cleanGo inv rest (dset acc key v)
          else cleanGo inv rest acc

/-- Model of `Inverter.clean`: clean every item, then add the device name
under the `name` key. -/
def clean (inv : InverterInfo) (raw : RawResults) : Option Cleaned :=
  (cleanGo inv raw []).map (fun es => ⟨es, inv.name⟩)

/-- Result record of `Inverter.read_instantaneous`
(`{name, sensors, error}`; the source stores the string literal `None` in
the error field of a successful read). -/
structure InstantResult where
  name : String
  sensors : Option RawResults
  error : String
deriving DecidableEq

/-- Model of `Inverter.read_instantaneous`.  `cache` is the current
`_instantaneous` set, `daylight` the argument (the call sites can pass
`None`, modelled as `none`, and the guard is the identity test
`daylight is False`), and `fetch` the outcome the device request would have
(`Except.error` modelling a raised `SmaException`).  Returns the new cache
and the result record. -/
def inv_read_instantaneous (name : String) (cache : Option RawResults)
    (daylight : Option Bool) (fetch : Except SmaException RawResults) :
    Option RawResults × InstantResult :=
  if daylight = some false then (cache, ⟨name, cache, "None"⟩)
  else
    match fetch with
    | Except.ok d => (some d, ⟨name, some d, "None"⟩)
    | Except.error e => (cache, ⟨name, none, smaExceptionName e⟩)

/-- One `{t, v}` record of a device history reply. -/
structure HistEntry where
  t : ℤ
  v : ℤ
deriving Repr, DecidableEq

/-- One element of the list `Inverter.read_history` returns: the
device-identifying marker record inserted at the front, or a `{t, v}`
record. -/
inductive HistRecord where
  | marker (inverter : String)
  | entry (t : ℤ) (v : ℤ)
deriving Repr, DecidableEq

/-- Model of `Inverter.read_history`: `none` when the transport raised or
the reply was falsy (`if not history`), otherwise the reply with the marker
record inserted at index 0. -/
def inv_read_history (name : String) (raw : Option (List HistEntry)) :
    Option (List HistRecord) :=
  match raw with
  | none => none
  | some [] => none
  | some l => some (HistRecord.marker name :: l.map (fun e2 => HistRecord.entry e2.t e2.v))

/-- The `_history` baseline map of an `Inverter`, one optional record per
accounting period (each field is `none` until the period has been stored). -/
structure ProdBaseline where
  today : Option HistRecord
  month : Option HistRecord
  year : Option HistRecord
  lifetime : Option HistRecord
deriving Repr, DecidableEq

/-- Python `self._history.get(period)`. -/
def baselineGet (h : ProdBaseline) (period : String) : Option HistRecord :=
  if period = "today" then h.today
  else if period = "month" then h.month
  else if period = "year" then h.year
  else if period = "lifetime" then h.lifetime
  else none

/-- Model of `Inverter.read_inverter_production`.  `raw0`, `raw1` and `raw2`
are the outcomes of the three concurrent history reads (today, month and
year windows).  If any read returns `None` the refresh reports failure and
the stored baseline map is returned unchanged; otherwise element 1 of each
reply (the record after the marker) becomes the period baseline and the
lifetime baseline is set to `{t: 0, v: 0}`.  The outer `none` models a
raised `IndexError`, which a non-`None` reply cannot produce because it
always holds the marker plus at least one record. -/
def read_inverter_production (name : String) (hist : ProdBaseline)
    (raw0 raw1 raw2 : Option (List HistEntry)) : Option (Bool × ProdBaseline) :=
  let r0 := inv_read_history name raw0
  let r1 := inv_read_history name raw1
  let r2 := inv_read_history name raw2
  if r0.isNone || r1.isNone || r2.isNone then some (false, hist)
  else
    match r0.bind (fun l => l.get? 1), r1.bind (fun l => l.get? 1),
          r2.bind (fun l => l.get? 1) with
    | some e0, some e1, some e2 =>
      some (true, ⟨some e0, some e1, some e2, some (HistRecord.entry 0 0)⟩)
    | _, _, _ => none

/-- Python `history["v"]`: the `v` field of a stored baseline record; a
marker record has no such key (`KeyError`, modelled as `none`). -/
def recV : HistRecord → Option ℤ
  | HistRecord.marker _ => none
  | HistRecord.entry _ v => some v

/-- Model of `Inverter.start_production`: the singleton dict mapping the
device name to the `v` field of the stored baseline for the period.  `none`
models the exception raised when the period has no stored baseline or the
stored record has no `v` field. -/
def start_production (name : String) (hist : ProdBaseline) (period : String) :
    Option (String × ℤ) :=
  match baselineGet hist period with
  | none => none
  | some r => (recV r).map (fun v => (name, v))

/-! ## pvsite.py — the site aggregator -/

/-- Result record of `Inverter.start` as `PVSite.start` consumes it:
the cached key set (`none` when startup of that device failed), the device
identification and the optional error text. -/
structure StartResult where
  keys : Option (List String)
  name : String
  error : Option String
deriving Repr, DecidableEq

/-- Model of the device portion of `PVSite.start` (lines 133 to 144):
`results` are the gathered `Inverter.start` outcomes and `cachedKeys` the
current `_cached_keys` value.  The site reports failure, leaving the cache
unchanged, as soon as any device reports no key set; otherwise the cache is
replaced by the first device key set.  The outer `none` models the
`IndexError` that indexing `inverters[0]` raises on an empty device list. -/
def pv_start (results : List StartResult) (cachedKeys : Option (List String)) :
    Option (Bool × Option (List String)) :=
  let success := results.all (fun r => r.keys.isSome)
  if success then
    match results with
    | [] => none
    | r :: _ => some (true, r.keys)
  else some (false, cachedKeys)

/-- Default sampling intervals of `pvsite.py` (`_DEFAULT_FAST`,
`_DEFAULT_MEDIUM`, `_DEFAULT_SLOW`). -/
def DEFAULT_FAST : ℕ := 30

/-- Default medium sampling interval of `pvsite.py`. -/
def DEFAULT_MEDIUM : ℕ := 60

/-- Default slow sampling interval of `pvsite.py`. -/
def DEFAULT_SLOW : ℕ := 120

/-- One observable action of the scheduler loop body: the gathered
instantaneous-read refresh, the gathered total-production refresh, or
placing a tick on one of the tier queues. -/
inductive SchedAction where
  | refreshInstantaneous
  | refreshTotals
  | enqueue (tier : String) (tick : ℕ)
deriving Repr, DecidableEq

/-- Model of one pass of the `PVSite.scheduler` loop body, as the ordered
list of actions it performs.  `last` is the previously handled second and
`tick` the second just sampled; nothing happens unless the second changed.
On a fast boundary the two refreshes are awaited (so they complete) before
the tick is placed on the fast queue, matching the `await asyncio.gather`
that precedes `put_nowait`. -/
def scheduler_step (fast medium slow last tick : ℕ) : List SchedAction :=
  if tick = last then []
  else
    (if tick % fast = 0 then
      [SchedAction.refreshInstantaneous, SchedAction.refreshTotals,
       SchedAction.enqueue "fast" tick]
     else [])
    ++ (if tick % medium = 0 then [SchedAction.enqueue "medium" tick] else [])
    ++ (if tick % slow = 0 then [SchedAction.enqueue "slow" tick] else [])

/-- One element of the `_total_production` list built by
`PVSite.update_total_production`: the per-device period deltas, plus the
`site` and `period` keys (each optional because neither is written when the
device list is empty). -/
structure PeriodStats where
  entries : List (String × ℤ)
  site : Option ℤ
  period : Option String
deriving Repr, DecidableEq

/-- The period list `["today", "month", "year", "lifetime"]` that
`PVSite.update_total_production` iterates. -/
def theperiods : List String := ["today", "month", "year", "lifetime"]

/-- Inner loop of `PVSite.update_total_production` for one period: for each
gathered `{name: baseline}` singleton, look the device meter up in the
total-production dict (`none` models the `KeyError` of
`total_production[inverter_name]`), subtract the baseline, accumulate the
running site total, and store the delta; the `site` and `period` keys are
rewritten after every device. -/
def periodStatsLoop (meter : List (String × ℤ)) (period : String) :
    List (String × ℤ) → PeriodStats → ℤ → Option (PeriodStats × ℤ)
  | [], st, total => some (st, total)
  | p :: rest, st, total =>
    match dget meter p.1 with
    | none => none
    | some m =>
      let delta := m - p.2
      let total2 := total + delta
      periodStatsLoop meter period rest
        ⟨dset st.entries p.1 delta, some total2, some period⟩ total2

/-- The period record `PVSite.update_total_production` appends for one
period. -/
def periodStats (meter : List (String × ℤ)) (invPeriods : List (String × ℤ))
    (period : String) : Option PeriodStats :=
  (periodStatsLoop meter period invPeriods ⟨[], none, none⟩ 0).map Prod.fst

/-- The gathered `start_production` results across the device list for one
period (`asyncio.gather` keeps the device order; a raised exception fails
the whole gather). -/
def gatherStart (invs : List (String × ProdBaseline)) (period : String) :
    Option (List (String × ℤ)) :=
  match invs with
  | [] => some []
  | nb :: rest =>
    match start_production nb.1 nb.2 period with
    | none => none
    | some p => (gatherStart rest period).map (fun l => p :: l)

/-- One period of `PVSite.update_total_production` over the device list. -/
def statsFor (meter : List (String × ℤ)) (invs : List (String × ProdBaseline))
    (period : String) : Option PeriodStats :=
  (gatherStart invs period).bind (fun ip => periodStats meter ip period)

/-- The four period records built for one total-production dict, in the
order the source loop (`for period in [...]`) appends them. -/
def update_total_production_one (meter : List (String × ℤ))
    (invs : List (String × ProdBaseline)) : Option (List PeriodStats) := do
  let a ← statsFor meter invs "today"
  let b ← statsFor meter invs "month"
  let c ← statsFor meter invs "year"
  let d ← statsFor meter invs "lifetime"
  some [a, b, c, d]

/-- Model of `PVSite.update_total_production` in the daylight case: the
outer loop runs over the dicts returned by `production_totalwh` (each a map
from device name to its cumulative total-Wh meter; the non-numeric `topic`
entry is never read and is left out of the model) and the new
`_total_production` list is the concatenation of the per-period records. -/
def update_total_production (meters : List (List (String × ℤ)))
    (invs : List (String × ProdBaseline)) : Option (List PeriodStats) :=
  match meters with
  | [] => some []
  | m :: rest => do
    let x ← update_total_production_one m invs
    let y ← update_total_production rest invs
    some (x ++ y)

/-- Model of `PVSite.find_total_production`: the first stored period record
whose `period` entry matches. -/
def find_total_production (tp : List PeriodStats) (period : String) :
    Option PeriodStats :=
  tp.find? (fun d => d.period == some period)

/-- The per-period settings record of `PVSite.co2_avoided`. -/
structure Co2Settings where
  scale : ℚ
  precision : ℕ
  factor : ℚ
deriving Repr, DecidableEq

/-- The `CO2_SETTINGS` dict of `PVSite.co2_avoided` for a configured
`co2_avoided` factor `kg`: every period scales by 0.001, `today` keeps two
decimals and the longer periods zero. -/
def CO2_SETTINGS (kg : ℚ) : List (String × Co2Settings) :=
  [("today", ⟨1/1000, 2, kg⟩), ("month", ⟨1/1000, 0, kg⟩),
   ("year", ⟨1/1000, 0, kg⟩), ("lifetime", ⟨1/1000, 0, kg⟩)]

/-- The per-value computation of `PVSite.co2_avoided`:
`co2 = value * scale * factor`, then `round(co2, precision)` when the
precision is non-zero (zero is falsy in Python) and `int(co2)` otherwise. -/
def co2Scale (s : Co2Settings) (v : ℚ) : ℚ :=
  let co2 := v * s.scale * s.factor
  if s.precision ≠ 0 then pyRound co2 s.precision else (pyInt co2 : ℚ)

/-- One record of the `co2_avoided` result: the scaled per-device values,
the scaled `site` value and the topic. -/
structure Co2Period where
  entries : List (String × ℚ)
  site : Option ℚ
  topic : String
deriving Repr, DecidableEq

/-- One period of `PVSite.co2_avoided`: look the period record up (`none`
models the exception raised by `tp.pop` on a missing record), drop the
`period` key, and scale every remaining item (the per-device deltas and the
`site` total alike). -/
def co2_period (kg : ℚ) (tpList : List PeriodStats) (period : String) :
    Option Co2Period :=
  match dget (CO2_SETTINGS kg) period, find_total_production tpList period with
  | some st, some tp =>
    some ⟨tp.entries.map (fun kv => (kv.1, co2Scale st kv.2)),
          tp.site.map (co2Scale st), "co2avoided/" ++ period⟩
  | _, _ => none

/-- Model of `PVSite.co2_avoided` over the stored `_total_production`
list. -/
def co2_avoided (kg : ℚ) (tpList : List PeriodStats) : Option (List Co2Period) := do
  let a ← co2_period kg tpList "today"
  let b ← co2_period kg tpList "month"
  let c ← co2_period kg tpList "year"
  let d ← co2_period kg tpList "lifetime"
  some [a, b, c, d]

/-- A value stored in a composite sensor dict built by
`PVSite.get_composite`: a scalar reading or a per-phase dict. -/
inductive CompVal where
  | num (q : ℚ)
  | phases (m : List (String × ℚ))
deriving Repr, DecidableEq

/-- A composite sensor record: the per-device values plus the topic entry
(the optional `precision` entry carries no device reading and the
efficiency loop skips both, so the model keys them out of `vals`; the skip
guard itself is kept in the loop). -/
structure Composite where
  vals : List (String × CompVal)
  topic : String
deriving Repr, DecidableEq

/-- The denominator `PVSite.inverter_efficiency` picks for key `k`:
`dc.get(k) if isinstance(dc, dict) else dc`. -/
def effDenom (dc : Option CompVal) (k : String) : Option ℚ :=
  match dc with
  | some (CompVal.phases m) => dget m k
  | some (CompVal.num q) => some q
  | none => none

/-- One entry of the efficiency dict:
`0.0 if denom == 0 else round((float(v) / denom) * 100, 2)`.  A missing
denominator is `None`, which fails the `== 0` test, after which Python
evaluates `float(v)` (raising on a phase dict) and then raises a
`TypeError` on the division by `None`. -/
def effEntry (v : CompVal) (denom : Option ℚ) : Except String ℚ :=
  match denom with
  | some d =>
    if d = 0 then Except.ok 0
    else
      match v with
      | CompVal.num q => Except.ok (pyRound (q / d * 100) 2)
      | CompVal.phases _ => Except.error "TypeError: float() argument must be a number"
  | none =>
    match v with
    | CompVal.num _ => Except.error "TypeError: unsupported operand types for division"
    | CompVal.phases _ => Except.error "TypeError: float() argument must be a number"

/-- Loop of `PVSite.inverter_efficiency` over the AC composite items,
skipping the `precision` and `topic` keys. -/
def effGo (dcVals : List (String × CompVal)) :
    List (String × CompVal) → List (String × ℚ) → Except String (List (String × ℚ))
  | [], acc => Except.ok acc
  | (k, v) :: rest, acc =>
    if k = "precision" ∨ k = "topic" then effGo dcVals rest acc
    else
      match effEntry v (effDenom (dget dcVals k) k) with
      | Except.error e => Except.error e
      | Except.ok q => effGo dcVals rest (dset acc k q)

/-- Model of `PVSite.inverter_efficiency` over the AC and DC power
composites: the per-device efficiency dict plus its topic, or the raised
exception. -/
def inverter_efficiency (acPower dcPower : Composite) :
    Except String (List (String × ℚ) × String) :=
  (effGo dcPower.vals acPower.vals []).map
    (fun es => (es, "ac_measurements/efficiency"))

/-! ## Theorems -/

/-- C2: when every transport attempt of a request fails with a timeout or a
client error, `_fetch_json` makes exactly 3 attempts (its loop is
`range(3)`, so a fourth attempt is impossible), each guarded by the fixed
3-second timeout, and returns the single connectivity-error body, whose
missing `result` field shows that no partial result is produced. -/
theorem fetch_json_retry_exhaustion {π : Type} (transport : ℕ → Option (SmaBody π))
    (url : String) (h : ∀ i, i < fetchAttempts → transport i = none) :
    fetch_json transport url = (⟨some (connectMessage url), none, none⟩, 3)
      ∧ fetchAttempts = 3 ∧ fetchTimeoutSeconds = 3 := by
  refine ⟨?_, rfl, rfl⟩
  have h0 := h 0 (by norm_num [fetchAttempts])
  have h1 := h 1 (by norm_num [fetchAttempts])
  have h2 := h 2 (by norm_num [fetchAttempts])
  show fetchJsonGo transport url 0 3 = _
  rw [show (3 : ℕ) = 2 + 1 from rfl, fetchJsonGo, h0,
      show (2 : ℕ) = 1 + 1 from rfl, fetchJsonGo, h1,
      show (1 : ℕ) = 0 + 1 from rfl, fetchJsonGo, h2, fetchJsonGo]

/-- Witness for C2 at a concrete always-failing transport. -/
theorem fetch_json_retry_exhaustion_witness :
    fetch_json (fun _ => (none : Option (SmaBody ℕ))) "http://sma21" =
      (⟨some (connectMessage "http://sma21"), none, none⟩, 3)
      ∧ fetchAttempts = 3 ∧ fetchTimeoutSeconds = 3 :=
  fetch_json_retry_exhaustion (fun _ => none) "http://sma21" (fun _ _ => rfl)

theorem readBodyCore_didLogin {π : Type} (s : SmaState) (d : Bool) (b : SmaBody π) :
    (readBodyCore s d b).2.1 = d := by
  unfold readBodyCore
  cases hb : b.err with
  | some e => rfl
  | none =>
    cases hr : b.result with
    | none => rfl
    | some res =>
      dsimp only
      split <;> rfl

/-- C4: a reply body carrying an explicit `err` field makes `_read_body`
clear the stored session id (the session is closed at once) and raise
`ERR_RETURNED` instead of retrying with the same session, and every
subsequent `_read_body` call from the resulting state performs a fresh
login before its request, so the session that produced the device-side
error is never reused. -/
theorem read_body_err_invalidates {π : Type} (s : SmaState) (loginBody body : SmaBody π)
    (sid0 : String) (e : String)
    (hsid : s.sma_sid = some sid0)
    (hdata : s.hasSessionData = true)
    (herr : body.err = some e) :
    (read_body s loginBody body).1.sma_sid = none
      ∧ (read_body s loginBody body).2.2 = Except.error SmaException.ERR_RETURNED
      ∧ ∀ (lb2 b2 : SmaBody π),
          (read_body (read_body s loginBody body).1 lb2 b2).2.1 = true := by
  have hcond : ¬(s.sma_sid.isNone ∧ s.hasSessionData = true) := by
    simp [hsid]
  have hrb : read_body s loginBody body = readBodyCore s false body := by
    unfold read_body
    rw [if_neg hcond]
  have hcore : readBodyCore s false body =
      (close_session s, false, Except.error SmaException.ERR_RETURNED) := by
    unfold readBodyCore
    rw [herr]
  rw [hrb, hcore]
  refine ⟨rfl, rfl, ?_⟩
  intro lb2 b2
  have hcond2 : ((close_session s).sma_sid.isNone
      ∧ (close_session s).hasSessionData = true) := by
    simp [close_session, hdata]
  unfold read_body
  rw [if_pos hcond2]
  rcases hns : new_session (close_session s) lb2 with ⟨s1, eo⟩
  cases eo with
  | some ex => rfl
  | none =>
    dsimp only
    split
    · rfl
    · exact readBodyCore_didLogin s1 true b2

/-- Witness for C4 at a concrete active session and error reply. -/
theorem read_body_err_invalidates_witness :
    (read_body (⟨some "sid-1", some "uid-1", true⟩ : SmaState)
        (⟨none, none, none⟩ : SmaBody ℕ) ⟨some "oops", none, none⟩).1.sma_sid = none
      ∧ (read_body (⟨some "sid-1", some "uid-1", true⟩ : SmaState)
          (⟨none, none, none⟩ : SmaBody ℕ) ⟨some "oops", none, none⟩).2.2 =
            Except.error SmaException.ERR_RETURNED
      ∧ ∀ (lb2 b2 : SmaBody ℕ),
          (read_body (read_body (⟨some "sid-1", some "uid-1", true⟩ : SmaState)
              (⟨none, none, none⟩ : SmaBody ℕ) ⟨some "oops", none, none⟩).1 lb2 b2).2.1 = true :=
  read_body_err_invalidates ⟨some "sid-1", some "uid-1", true⟩ ⟨none, none, none⟩
    ⟨some "oops", none, none⟩ "sid-1" "oops" rfl rfl rfl

/-- C10: calling `Inverter.read_instantaneous` with `daylight = False` hits
the early return: no device request is performed (the result is the same
whatever the transport would have produced), the cached instantaneous set is
unchanged, and the `sensors` field of the returned record is exactly the
current cache; over the boolean argument values, only `daylight = True` can
replace the cache. -/
theorem read_instantaneous_daylight_false_frame (name : String)
    (cache : Option RawResults) (fetch : Except SmaException RawResults) :
    inv_read_instantaneous name cache (some false) fetch = (cache, ⟨name, cache, "None"⟩)
      ∧ ∀ (b : Bool) (f : Except SmaException RawResults),
          (inv_read_instantaneous name cache (some b) f).1 ≠ cache → b = true := by
  constructor
  · simp [inv_read_instantaneous]
  · intro b f hne
    cases b with
    | false =>
      exfalso
      exact hne (by simp [inv_read_instantaneous])
    | true => rfl

/-- Witness for C10 at a concrete night-time call. -/
theorem read_instantaneous_daylight_false_frame_witness :
    inv_read_instantaneous "sb71" none (some false) (Except.ok []) =
      (none, ⟨"sb71", none, "None"⟩) ∧ (true = true) :=
  ⟨(read_instantaneous_daylight_false_frame "sb71" none (Except.ok [])).1,
   (read_instantaneous_daylight_false_frame "sb71" none (Except.ok [])).2 true
     (Except.ok []) (by simp [inv_read_instantaneous])⟩

/-- C6: `read_inverter_production` fails as a whole, leaving the stored
baseline map untouched, as soon as any of the three concurrent history
reads returns no data; when all three succeed, the today, month and year
baselines become the first record of each reply and the lifetime baseline
is set to the fixed record with `t = 0` and `v = 0`. -/
theorem read_inverter_production_all_or_nothing (name : String) (hist : ProdBaseline)
    (raw0 raw1 raw2 : Option (List HistEntry)) :
    ((inv_read_history name raw0 = none ∨ inv_read_history name raw1 = none
        ∨ inv_read_history name raw2 = none) →
      read_inverter_production name hist raw0 raw1 raw2 = some (false, hist))
    ∧ (∀ (e0 e1 e2 : HistEntry) (l0 l1 l2 : List HistEntry),
        raw0 = some (e0 :: l0) → raw1 = some (e1 :: l1) → raw2 = some (e2 :: l2) →
        read_inverter_production name hist raw0 raw1 raw2 =
          some (true, ⟨some (HistRecord.entry e0.t e0.v), some (HistRecord.entry e1.t e1.v),
                       some (HistRecord.entry e2.t e2.v), some (HistRecord.entry 0 0)⟩)) := by
  constructor
  · intro hfail
    unfold read_inverter_production
    rcases hfail with h | h | h <;> simp [h]
  · intro e0 e1 e2 l0 l1 l2 h0 h1 h2
    subst h0; subst h1; subst h2
    simp [read_inverter_production, inv_read_history]

/-- Prior baseline map used by the C6 witness. -/
def exBaselinePrior : ProdBaseline :=
  ⟨some (HistRecord.entry 9 1), some (HistRecord.entry 9 2),
   some (HistRecord.entry 9 3), some (HistRecord.entry 0 0)⟩

/-- Witness for C6: one failing read keeps the old baselines, three
successful reads install the new ones with the fixed lifetime record. -/
theorem read_inverter_production_all_or_nothing_witness :
    read_inverter_production "sb71" exBaselinePrior none (some [⟨5, 7⟩]) (some [⟨6, 8⟩]) =
      some (false, exBaselinePrior)
      ∧ read_inverter_production "sb71" exBaselinePrior
          (some [⟨1, 1000⟩]) (some [⟨2, 900⟩]) (some [⟨3, 800⟩]) =
        some (true, ⟨some (HistRecord.entry 1 1000), some (HistRecord.entry 2 900),
                     some (HistRecord.entry 3 800), some (HistRecord.entry 0 0)⟩) :=
  ⟨(read_inverter_production_all_or_nothing "sb71" exBaselinePrior none
      (some [⟨5, 7⟩]) (some [⟨6, 8⟩])).1 (Or.inl rfl),
   (read_inverter_production_all_or_nothing "sb71" exBaselinePrior
      (some [⟨1, 1000⟩]) (some [⟨2, 900⟩]) (some [⟨3, 800⟩])).2
     ⟨1, 1000⟩ ⟨2, 900⟩ ⟨3, 800⟩ [] [] [] rfl rfl rfl⟩

/-- Device data used by the C5 theorems: one enumerated key whose tag
dictionary maps code 295 to a display string. -/
def exTagInverter : InverterInfo :=
  ⟨"sb71", [("6180_08416400", ⟨some 1, none⟩)], [("295", "Mpp")]⟩

/-- Raw payload used by the C5 theorems: the enumerated key reports the tag
code 295. -/
def exTagRaw : RawResults :=
  [("6180_08416400", some ⟨some [⟨some (StateVal.tagList [some 295])⟩]⟩)]

/-- C5 counterexample: for an enumerated (type 1) metric, `clean` stores the
first reported tag code itself — the opaque integer 295 — although the tag
dictionary resolves that code to the display string `Mpp`; the cleaned value
is not the resolved string, refuting the claim as stated. -/
theorem clean_tag_counterexample :
    clean exTagInverter exTagRaw =
      some ⟨[("6180_08416400", CleanVal.intv 295)], "sb71"⟩
      ∧ lookup_tag exTagInverter 295 = "Mpp"
      ∧ CleanVal.intv 295 ≠ CleanVal.str (lookup_tag exTagInverter 295) := by
  refine ⟨by decide, by decide, by decide⟩

/-- C5 amended: for an enumerated (type 1) metric, `clean` returns the first
reported tag code as an opaque integer; `lookup_tag` is never applied to
it. -/
theorem clean_tag_code_amended (inv : InverterInfo) (key : String) (code : ℤ)
    (tl : List (Option ℤ)) (sts : List RawState)
    (hty : get_type inv key = some (some 1)) :
    clean inv [(key, some ⟨some (⟨some (StateVal.tagList (some code :: tl))⟩ :: sts)⟩)] =
      some ⟨[(key, CleanVal.intv code)], inv.name⟩ := by
  unfold clean cleanGo
  rw [hty]
  simp [cleanType1, dset, cleanGo]

/-- Witness for C5 amended, at the concrete device data of the
counterexample. -/
theorem clean_tag_code_amended_witness :
    clean exTagInverter
        [("6180_08416400", some ⟨some [⟨some (StateVal.tagList [some 295])⟩]⟩)] =
      some ⟨[("6180_08416400", CleanVal.intv 295)], "sb71"⟩ :=
  clean_tag_code_amended exTagInverter "6180_08416400" 295 [] [] rfl

/-- C7: the modelled device portion of `PVSite.start` reports failure,
leaving the cached key set unchanged, whenever any device start reports no
keys; it reports success only when every device start succeeded, and then
the site cache is taken from the first device record. -/
theorem pv_start_all_or_nothing (results : List StartResult)
    (cached : Option (List String)) :
    ((∃ r ∈ results, r.keys = none) → pv_start results cached = some (false, cached))
    ∧ (∀ (r0 : StartResult) (rest : List StartResult), results = r0 :: rest →
        (∀ r ∈ results, r.keys.isSome) →
        pv_start results cached = some (true, r0.keys))
    ∧ (∀ b ks, pv_start results cached = some (b, ks) → b = true →
        ∀ r ∈ results, r.keys.isSome) := by
  refine ⟨?_, ?_, ?_⟩
  · rintro ⟨r, hr, hkeys⟩
    have hall : results.all (fun x => x.keys.isSome) = false := by
      rw [List.all_eq_false]
      exact ⟨r, hr, by simp [hkeys]⟩
    simp [pv_start, hall]
  · intro r0 rest hres hsucc
    have hall : results.all (fun x => x.keys.isSome) = true := by
      rw [List.all_eq_true]
      intro x hx
      exact hsucc x hx
    subst hres
    simp [pv_start, hall]
  · intro b ks heq htrue r hr
    cases hall : results.all (fun x => x.keys.isSome) with
    | false =>
      unfold pv_start at heq
      rw [hall] at heq
      simp at heq
      rw [heq.1] at htrue
      exact absurd htrue (by simp)
    | true =>
      rw [List.all_eq_true] at hall
      exact hall r hr

/-- Witness for C7: a single failed device aborts startup; a successful
device list starts the site with the first device keys. -/
theorem pv_start_all_or_nothing_witness :
    pv_start [⟨none, "http://sma21", some "NO_SESSION"⟩] none = some (false, none)
      ∧ pv_start [⟨some ["6100_40263F00"], "http://sma21", none⟩] none =
          some (true, some ["6100_40263F00"]) :=
  ⟨(pv_start_all_or_nothing [⟨none, "http://sma21", some "NO_SESSION"⟩] none).1
      ⟨⟨none, "http://sma21", some "NO_SESSION"⟩, by simp, rfl⟩,
   (pv_start_all_or_nothing [⟨some ["6100_40263F00"], "http://sma21", none⟩] none).2.1
      ⟨some ["6100_40263F00"], "http://sma21", none⟩ [] rfl (by decide)⟩

/-- C8: on a distinct observed second `tick`, the scheduler loop body places
a tick on the fast, medium or slow queue exactly when `tick` is divisible by
the corresponding interval, and on a fast boundary the two refresh actions
come before the fast enqueue in the performed action sequence; the default
intervals are 30, 60 and 120 seconds. -/
theorem scheduler_step_dispatch (fast medium slow last tick : ℕ)
    (hnew : tick ≠ last) :
    (SchedAction.enqueue "fast" tick ∈ scheduler_step fast medium slow last tick
        ↔ fast ∣ tick)
    ∧ (SchedAction.enqueue "medium" tick ∈ scheduler_step fast medium slow last tick
        ↔ medium ∣ tick)
    ∧ (SchedAction.enqueue "slow" tick ∈ scheduler_step fast medium slow last tick
        ↔ slow ∣ tick)
    ∧ (fast ∣ tick → ∃ rest, scheduler_step fast medium slow last tick =
        SchedAction.refreshInstantaneous :: SchedAction.refreshTotals ::
        SchedAction.enqueue "fast" tick :: rest)
    ∧ DEFAULT_FAST = 30 ∧ DEFAULT_MEDIUM = 60 ∧ DEFAULT_SLOW = 120 := by
  unfold scheduler_step
  rw [if_neg hnew]
  rw [Nat.dvd_iff_mod_eq_zero, Nat.dvd_iff_mod_eq_zero, Nat.dvd_iff_mod_eq_zero]
  by_cases hF : tick % fast = 0 <;> by_cases hM : tick % medium = 0
    <;> by_cases hS : tick % slow = 0
    <;> simp [hF, hM, hS, DEFAULT_FAST, DEFAULT_MEDIUM, DEFAULT_SLOW]

/-- Witness for C8 at the default intervals, second 60 following second 59:
the fast and medium queues get the tick, the slow queue does not, and the
refreshes precede the fast enqueue. -/
theorem scheduler_step_dispatch_witness :
    (SchedAction.enqueue "fast" 60 ∈ scheduler_step 30 60 120 59 60 ↔ (30 : ℕ) ∣ 60)
    ∧ (SchedAction.enqueue "medium" 60 ∈ scheduler_step 30 60 120 59 60 ↔ (60 : ℕ) ∣ 60)
    ∧ (SchedAction.enqueue "slow" 60 ∈ scheduler_step 30 60 120 59 60 ↔ (120 : ℕ) ∣ 60)
    ∧ ((30 : ℕ) ∣ 60 → ∃ rest, scheduler_step 30 60 120 59 60 =
        SchedAction.refreshInstantaneous :: SchedAction.refreshTotals ::
        SchedAction.enqueue "fast" 60 :: rest)
    ∧ DEFAULT_FAST = 30 ∧ DEFAULT_MEDIUM = 60 ∧ DEFAULT_SLOW = 120 :=
  scheduler_step_dispatch 30 60 120 59 60 (by decide)

theorem periodStatsLoop_spec (meter : List (String × ℤ)) (period : String)
    (f : String → ℤ) :
    ∀ (l : List (String × ℤ)) (st : PeriodStats) (total : ℤ),
      (∀ p ∈ l, dget meter p.1 = some (f p.1)) →
      (∀ p ∈ l, dget st.entries p.1 = none) →
      (l.map Prod.fst).Nodup →
      periodStatsLoop meter period l st total =
        some (⟨st.entries ++ l.map (fun p => (p.1, f p.1 - p.2)),
               if l.isEmpty then st.site
               else some (total + (l.map (fun p => f p.1 - p.2)).sum),
               if l.isEmpty then st.period else some period⟩,
              total + (l.map (fun p => f p.1 - p.2)).sum) := by
  intro l
  induction l with
  | nil =>
    intro st total _ _ _
    simp [periodStatsLoop]
  | cons p rest ih =>
    intro st total hM hfresh hnd
    have hm : dget meter p.1 = some (f p.1) := hM p (List.mem_cons_self p rest)
    have hfp : dget st.entries p.1 = none := hfresh p (List.mem_cons_self p rest)
    have hnotin : p.1 ∉ rest.map Prod.fst := by
      rw [List.map_cons] at hnd
      exact (List.nodup_cons.mp hnd).1
    have hndr : (rest.map Prod.fst).Nodup := by
      rw [List.map_cons] at hnd
      exact (List.nodup_cons.mp hnd).2
    have hMr : ∀ q ∈ rest, dget meter q.1 = some (f q.1) :=
      fun q hq => hM q (List.mem_cons_of_mem p hq)
    have hfr : ∀ q ∈ rest, dget (dset st.entries p.1 (f p.1 - p.2)) q.1 = none := by
      intro q hq
      have hne : q.1 ≠ p.1 := by
        intro hqe
        exact hnotin (hqe ▸ List.mem_map_of_mem Prod.fst hq)
      rw [dget_dset_ne _ _ _ _ hne]
      exact hfresh q (List.mem_cons_of_mem p hq)
    have step : periodStatsLoop meter period (p :: rest) st total =
        periodStatsLoop meter period rest
          ⟨dset st.entries p.1 (f p.1 - p.2), some (total + (f p.1 - p.2)), some period⟩
          (total + (f p.1 - p.2)) := by
      conv_lhs => rw [periodStatsLoop]
      rw [hm]
    rw [step, ih _ _ hMr hfr hndr, dset_of_dget_none _ _ _ hfp]
    cases rest with
    | nil => simp
    | cons q qs => simp [List.append_assoc, add_assoc]

theorem gatherStart_eq (invs : List (String × ProdBaseline)) (period : String)
    (g : String → ℤ)
    (hB : ∀ nb ∈ invs, start_production nb.1 nb.2 period = some (nb.1, g nb.1)) :
    gatherStart invs period = some (invs.map (fun nb => (nb.1, g nb.1))) := by
  induction invs with
  | nil => rfl
  | cons nb rest ih =>
    have hb := hB nb (List.mem_cons_self nb rest)
    unfold gatherStart
    rw [hb, ih (fun q hq => hB q (List.mem_cons_of_mem nb hq))]
    rfl

theorem statsFor_spec (meter : List (String × ℤ)) (invs : List (String × ProdBaseline))
    (period : String) (f : String → ℤ) (g : String → ℤ)
    (hne : invs ≠ [])
    (hnd : (invs.map Prod.fst).Nodup)
    (hM : ∀ nb ∈ invs, dget meter nb.1 = some (f nb.1))
    (hB : ∀ nb ∈ invs, start_production nb.1 nb.2 period = some (nb.1, g nb.1)) :
    statsFor meter invs period =
      some ⟨invs.map (fun nb => (nb.1, f nb.1 - g nb.1)),
            some ((invs.map (fun nb => f nb.1 - g nb.1)).sum),
            some period⟩ := by
  have hMm : ∀ p ∈ invs.map (fun nb => (nb.1, g nb.1)), dget meter p.1 = some (f p.1) := by
    intro p hp
    rcases List.mem_map.mp hp with ⟨nb, hnb, hpe⟩
    rw [← hpe]
    exact hM nb hnb
  have hfresh : ∀ p ∈ invs.map (fun nb => (nb.1, g nb.1)),
      dget (PeriodStats.entries ⟨[], none, none⟩) p.1 = none := by
    intro p _
    rfl
  have hndm : ((invs.map (fun nb => (nb.1, g nb.1))).map Prod.fst).Nodup := by
    rw [List.map_map]
    exact hnd
  have hmne : (invs.map (fun nb => (nb.1, g nb.1))).isEmpty = false := by
    cases invs with
    | nil => exact absurd rfl hne
    | cons a b => rfl
  unfold statsFor periodStats
  rw [gatherStart_eq invs period g hB]
  show (periodStatsLoop meter period (invs.map fun nb => (nb.1, g nb.1))
      ⟨[], none, none⟩ 0).map Prod.fst = _
  rw [periodStatsLoop_spec meter period f (invs.map fun nb => (nb.1, g nb.1))
      ⟨[], none, none⟩ 0 hMm hfresh hndm]
  simp [hmne, List.map_map, Function.comp]
  rfl

/-- C1: in daylight, `update_total_production` computes, for every period in
today, month, year and lifetime, a record that maps each device name to the
difference between the device cumulative meter value (from the
total-production dict) and the stored baseline value of that device for the
period, and whose `site` entry is the arithmetic sum of those per-device
deltas over all devices. -/
theorem update_total_production_correct (meter : List (String × ℤ))
    (invs : List (String × ProdBaseline)) (f : String → ℤ) (g : String → String → ℤ)
    (hne : invs ≠ [])
    (hnd : (invs.map Prod.fst).Nodup)
    (hM : ∀ nb ∈ invs, dget meter nb.1 = some (f nb.1))
    (hB : ∀ nb ∈ invs, ∀ per ∈ theperiods,
        start_production nb.1 nb.2 per = some (nb.1, g nb.1 per)) :
    update_total_production [meter] invs =
      some (theperiods.map (fun per =>
        ⟨invs.map (fun nb => (nb.1, f nb.1 - g nb.1 per)),
         some ((invs.map (fun nb => f nb.1 - g nb.1 per)).sum),
         some per⟩)) := by
  have h0 := statsFor_spec meter invs "today" f (fun n => g n "today") hne hnd hM
    (fun nb hnb => hB nb hnb "today" (by simp [theperiods]))
  have h1 := statsFor_spec meter invs "month" f (fun n => g n "month") hne hnd hM
    (fun nb hnb => hB nb hnb "month" (by simp [theperiods]))
  have h2 := statsFor_spec meter invs "year" f (fun n => g n "year") hne hnd hM
    (fun nb hnb => hB nb hnb "year" (by simp [theperiods]))
  have h3 := statsFor_spec meter invs "lifetime" f (fun n => g n "lifetime") hne hnd hM
    (fun nb hnb => hB nb hnb "lifetime" (by simp [theperiods]))
  unfold update_total_production update_total_production_one
  rw [h0, h1, h2, h3]
  simp [update_total_production, theperiods]

/-- Total-production meter dict of the section 8 scenario (deviceA at 1157,
deviceB at 609, plus the site total entry the composite carries). -/
def exMeterC1 : List (String × ℤ) := [("deviceA", 1157), ("deviceB", 609), ("site", 1766)]

/-- Baselines of deviceA in the section 8 scenario (today baseline 1000,
lifetime fixed at 0). -/
def exBaseA : ProdBaseline :=
  ⟨some (HistRecord.entry 0 1000), some (HistRecord.entry 0 1000),
   some (HistRecord.entry 0 1000), some (HistRecord.entry 0 0)⟩

/-- Baselines of deviceB in the section 8 scenario (today baseline 500,
lifetime fixed at 0). -/
def exBaseB : ProdBaseline :=
  ⟨some (HistRecord.entry 0 500), some (HistRecord.entry 0 500),
   some (HistRecord.entry 0 500), some (HistRecord.entry 0 0)⟩

/-- Device list of the section 8 scenario. -/
def exInvsC1 : List (String × ProdBaseline) := [("deviceA", exBaseA), ("deviceB", exBaseB)]

/-- Meter values of the section 8 scenario as a function. -/
def exFC1 : String → ℤ := fun n => if n = "deviceA" then 1157 else 609

/-- Baseline values of the section 8 scenario as a function. -/
def exGC1 : String → String → ℤ := fun n per =>
  if per = "lifetime" then 0 else if n = "deviceA" then 1000 else 500

/-- Witness for C1 at the section 8 scenario: the today record is
deviceA 157, deviceB 109 and site 266. -/
theorem update_total_production_correct_witness :
    update_total_production [exMeterC1] exInvsC1 =
      some (theperiods.map (fun per =>
        ⟨exInvsC1.map (fun nb => (nb.1, exFC1 nb.1 - exGC1 nb.1 per)),
         some ((exInvsC1.map (fun nb => exFC1 nb.1 - exGC1 nb.1 per)).sum),
         some per⟩))
      ∧ update_total_production [exMeterC1] exInvsC1 =
        some [⟨[("deviceA", 157), ("deviceB", 109)], some 266, some "today"⟩,
              ⟨[("deviceA", 157), ("deviceB", 109)], some 266, some "month"⟩,
              ⟨[("deviceA", 157), ("deviceB", 109)], some 266, some "year"⟩,
              ⟨[("deviceA", 1157), ("deviceB", 609)], some 1766, some "lifetime"⟩] :=
  ⟨update_total_production_correct exMeterC1 exInvsC1 exFC1 exGC1
      (by decide) (by decide) (by decide) (by decide),
   by decide⟩

/-- C3 counterexample: when a device key present in the AC power reading has
no entry in the DC power reading, the denominator is the Python `None`; it
is not equal to 0, so the zero guard does not fire and the division raises a
`TypeError` — the computation does not return for every combination of AC
and DC readings. -/
theorem inverter_efficiency_raises_counterexample :
    inverter_efficiency ⟨[("sb71", CompVal.num 100)], "ac_measurements/power"⟩
        ⟨[], "dc_measurements/power"⟩ =
      Except.error "TypeError: unsupported operand types for division" := by
  rfl

theorem effGo_spec (dcVals : List (String × CompVal)) :
    ∀ (l : List (String × CompVal)) (acc : List (String × ℚ)),
      (∀ kv ∈ l, kv.1 ≠ "precision" → kv.1 ≠ "topic" →
        (∃ q, kv.2 = CompVal.num q) ∧ (effDenom (dget dcVals kv.1) kv.1).isSome) →
      ∃ out, effGo dcVals l acc = Except.ok out ∧
        ∀ (k : String), k ≠ "precision" → k ≠ "topic" →
          effDenom (dget dcVals k) k = some 0 →
          (dget acc k = some 0 ∨ (∃ v, (k, v) ∈ l)) → dget out k = some 0 := by
  intro l
  induction l with
  | nil =>
    intro acc _
    refine ⟨acc, rfl, ?_⟩
    intro k _ _ _ hsrc
    rcases hsrc with h | ⟨v, hv⟩
    · exact h
    · exact absurd hv (List.not_mem_nil (k, v))
  | cons kv rest ih =>
    intro acc hl
    by_cases hguard : kv.1 = "precision" ∨ kv.1 = "topic"
    · have hstep : effGo dcVals (kv :: rest) acc = effGo dcVals rest acc := by
        rcases kv with ⟨k0, v0⟩
        conv_lhs => rw [effGo]
        rw [if_pos hguard]
      rcases ih acc (fun q hq => hl q (List.mem_cons_of_mem kv hq)) with ⟨out, hout, hzero⟩
      refine ⟨out, hstep ▸ hout, ?_⟩
      intro k hkp hkt hden hsrc
      apply hzero k hkp hkt hden
      rcases hsrc with h | ⟨v, hv⟩
      · exact Or.inl h
      · rcases List.mem_cons.mp hv with heq | hmem
        · exfalso
          have hk1 : k = kv.1 := congrArg Prod.fst heq
          rcases hguard with hg | hg
          · exact hkp (hk1.trans hg)
          · exact hkt (hk1.trans hg)
        · exact Or.inr ⟨v, hmem⟩
    · push_neg at hguard
      have hkv := hl kv (List.mem_cons_self kv rest)
      rcases hkv hguard.1 hguard.2 with ⟨⟨q, hq⟩, hds⟩
      rcases Option.isSome_iff_exists.mp hds with ⟨d, hd⟩
      have hentry : ∃ r, effEntry kv.2 (effDenom (dget dcVals kv.1) kv.1) = Except.ok r
          ∧ (d = 0 → r = 0) := by
        rw [hd, hq]
        by_cases hd0 : d = 0
        · exact ⟨0, by simp [effEntry, hd0], fun _ => rfl⟩
        · exact ⟨pyRound (q / d * 100) 2, by simp [effEntry, hd0], fun hc => absurd hc hd0⟩
      rcases hentry with ⟨r, hr, hr0⟩
      have hstep : effGo dcVals (kv :: rest) acc = effGo dcVals rest (dset acc kv.1 r) := by
        rcases kv with ⟨k0, v0⟩
        conv_lhs => rw [effGo]
        rw [if_neg (by push_neg; exact hguard), hr]
      rcases ih (dset acc kv.1 r)
          (fun q2 hq2 => hl q2 (List.mem_cons_of_mem kv hq2)) with ⟨out, hout, hzero⟩
      refine ⟨out, hstep ▸ hout, ?_⟩
      intro k hkp hkt hden hsrc
      apply hzero k hkp hkt hden
      by_cases hkk : k = kv.1
      · left
        subst hkk
        have hdz : d = 0 := by
          rw [hd] at hden
          exact Option.some.inj hden
        rw [hr0 hdz]
        exact dget_dset_self acc kv.1 0
      · rcases hsrc with h | ⟨v, hv⟩
        · left
          rw [dget_dset_ne _ _ _ _ hkk]
          exact h
        · rcases List.mem_cons.mp hv with heq | hmem
          · exact absurd (congrArg Prod.fst heq) hkk
          · exact Or.inr ⟨v, hmem⟩

/-- C3 amended: `inverter_efficiency` never divides by zero — a device whose
DC denominator is 0 gets the exact value 0.0 — and it returns without
raising for every combination in which each device key of the AC reading is
a numeric value with a present DC denominator; when a device key of the AC
reading has no DC denominator (the device is absent from the DC reading),
the computation raises a `TypeError` instead of returning. -/
theorem inverter_efficiency_amended (ac dc : Composite)
    (h : ∀ kv ∈ ac.vals, kv.1 ≠ "precision" → kv.1 ≠ "topic" →
        (∃ q, kv.2 = CompVal.num q) ∧ (effDenom (dget dc.vals kv.1) kv.1).isSome) :
    ∃ out, inverter_efficiency ac dc = Except.ok (out, "ac_measurements/efficiency")
      ∧ ∀ (k : String) (v : CompVal), (k, v) ∈ ac.vals → k ≠ "precision" →
          k ≠ "topic" → effDenom (dget dc.vals k) k = some 0 →
          dget out k = some 0 := by
  rcases effGo_spec dc.vals ac.vals [] h with ⟨out, hout, hzero⟩
  refine ⟨out, ?_, ?_⟩
  · unfold inverter_efficiency
    rw [hout]
    rfl
  · intro k v hkv hkp hkt hden
    exact hzero k hkp hkt hden (Or.inr ⟨v, hkv⟩)

/-- Witness for C3 amended: two devices, one with a zero DC denominator,
produce a value of exactly 0.0 for that device and no exception. -/
theorem inverter_efficiency_amended_witness :
    ∃ out, inverter_efficiency
        ⟨[("sb71", CompVal.num 100), ("sb72", CompVal.num 50)], "ac_measurements/power"⟩
        ⟨[("sb71", CompVal.num 0), ("sb72", CompVal.num 200)], "dc_measurements/power"⟩ =
      Except.ok (out, "ac_measurements/efficiency")
      ∧ ∀ (k : String) (v : CompVal),
          (k, v) ∈ [("sb71", CompVal.num 100), ("sb72", CompVal.num 50)] →
          k ≠ "precision" → k ≠ "topic" →
          effDenom (dget [("sb71", CompVal.num 0), ("sb72", CompVal.num 200)] k) k = some 0 →
          dget out k = some 0 :=
  inverter_efficiency_amended
    ⟨[("sb71", CompVal.num 100), ("sb72", CompVal.num 50)], "ac_measurements/power"⟩
    ⟨[("sb71", CompVal.num 0), ("sb72", CompVal.num 200)], "dc_measurements/power"⟩
    (by
      intro kv hkv _ _
      rcases List.mem_cons.mp hkv with heq | hkv2
      · rw [heq]
        exact ⟨⟨100, rfl⟩, rfl⟩
      · rcases List.mem_cons.mp hkv2 with heq2 | h3
        · rw [heq2]
          exact ⟨⟨50, rfl⟩, rfl⟩
        · exact absurd h3 (List.not_mem_nil kv))

/-- Stored `_total_production` list used by the C9 theorems: the section 8
today record (deviceA 157, deviceB 109, site 266) and zero records for the
remaining periods. -/
def exTotalProduction : List PeriodStats :=
  [⟨[("deviceA", 157), ("deviceB", 109)], some 266, some "today"⟩,
   ⟨[("deviceA", 0), ("deviceB", 0)], some 0, some "month"⟩,
   ⟨[("deviceA", 0), ("deviceB", 0)], some 0, some "year"⟩,
   ⟨[("deviceA", 0), ("deviceB", 0)], some 0, some "lifetime"⟩]

theorem co2Scale_today_form (v : ℚ) :
    co2Scale ⟨1/1000, 2, 1/2⟩ v = pyRound (v * (1/1000) * (1/2)) 2 := by
  simp [co2Scale]

theorem pyRound2_157 : pyRound ((157 : ℚ) * (1/1000) * (1/2)) 2 = 2/25 := by
  have harg : ((157 : ℚ) * (1/1000) * (1/2) * (10 : ℚ) ^ 2) = 157/20 := by norm_num
  have hfl : ratFloor ((157 : ℚ)/20) = 7 := by
    unfold ratFloor
    rw [show ((157 : ℚ)/20) = ((157 : ℤ) : ℚ)/((20 : ℕ) : ℚ) by norm_num,
        Rat.floor_intCast_div_natCast]
    decide
  unfold pyRound pyRoundInt
  rw [harg, hfl]
  norm_num

theorem pyRound2_109 : pyRound ((109 : ℚ) * (1/1000) * (1/2)) 2 = 1/20 := by
  have harg : ((109 : ℚ) * (1/1000) * (1/2) * (10 : ℚ) ^ 2) = 109/20 := by norm_num
  have hfl : ratFloor ((109 : ℚ)/20) = 5 := by
    unfold ratFloor
    rw [show ((109 : ℚ)/20) = ((109 : ℤ) : ℚ)/((20 : ℕ) : ℚ) by norm_num,
        Rat.floor_intCast_div_natCast]
    decide
  unfold pyRound pyRoundInt
  rw [harg, hfl]
  norm_num

theorem pyRound2_266 : pyRound ((266 : ℚ) * (1/1000) * (1/2)) 2 = 13/100 := by
  have harg : ((266 : ℚ) * (1/1000) * (1/2) * (10 : ℚ) ^ 2) = 133/10 := by norm_num
  have hfl : ratFloor ((133 : ℚ)/10) = 13 := by
    unfold ratFloor
    rw [show ((133 : ℚ)/10) = ((133 : ℤ) : ℚ)/((10 : ℕ) : ℚ) by norm_num,
        Rat.floor_intCast_div_natCast]
    decide
  unfold pyRound pyRoundInt
  rw [harg, hfl]
  norm_num

theorem co2Scale_coarse_zero : co2Scale ⟨1/1000, 0, 1/2⟩ 0 = 0 := by
  simp [co2Scale, pyInt, ratFloor]

theorem co2_avoided_scenario_eval :
    co2_avoided (1/2) exTotalProduction =
      some [⟨[("deviceA", 2/25), ("deviceB", 1/20)], some (13/100), "co2avoided/today"⟩,
            ⟨[("deviceA", 0), ("deviceB", 0)], some 0, "co2avoided/month"⟩,
            ⟨[("deviceA", 0), ("deviceB", 0)], some 0, "co2avoided/year"⟩,
            ⟨[("deviceA", 0), ("deviceB", 0)], some 0, "co2avoided/lifetime"⟩] := by
  have hA : co2Scale ⟨1/1000, 2, 1/2⟩ 157 = 2/25 :=
    (co2Scale_today_form 157).trans pyRound2_157
  have hB : co2Scale ⟨1/1000, 2, 1/2⟩ 109 = 1/20 :=
    (co2Scale_today_form 109).trans pyRound2_109
  have hC : co2Scale ⟨1/1000, 2, 1/2⟩ 266 = 13/100 :=
    (co2Scale_today_form 266).trans pyRound2_266
  have ht : co2_period (1/2) exTotalProduction "today" =
      some ⟨[("deviceA", co2Scale ⟨1/1000, 2, 1/2⟩ 157),
             ("deviceB", co2Scale ⟨1/1000, 2, 1/2⟩ 109)],
            some (co2Scale ⟨1/1000, 2, 1/2⟩ 266), "co2avoided/today"⟩ := rfl
  have hm : co2_period (1/2) exTotalProduction "month" =
      some ⟨[("deviceA", co2Scale ⟨1/1000, 0, 1/2⟩ 0),
             ("deviceB", co2Scale ⟨1/1000, 0, 1/2⟩ 0)],
            some (co2Scale ⟨1/1000, 0, 1/2⟩ 0), "co2avoided/month"⟩ := rfl
  have hy : co2_period (1/2) exTotalProduction "year" =
      some ⟨[("deviceA", co2Scale ⟨1/1000, 0, 1/2⟩ 0),
             ("deviceB", co2Scale ⟨1/1000, 0, 1/2⟩ 0)],
            some (co2Scale ⟨1/1000, 0, 1/2⟩ 0), "co2avoided/year"⟩ := rfl
  have hl : co2_period (1/2) exTotalProduction "lifetime" =
      some ⟨[("deviceA", co2Scale ⟨1/1000, 0, 1/2⟩ 0),
             ("deviceB", co2Scale ⟨1/1000, 0, 1/2⟩ 0)],
            some (co2Scale ⟨1/1000, 0, 1/2⟩ 0), "co2avoided/lifetime"⟩ := rfl
  rw [hA, hB, hC] at ht
  simp only [co2Scale_coarse_zero] at hm hy hl
  unfold co2_avoided
  rw [ht, hm, hy, hl]
  rfl

/-- C9 counterexample: with the section 8 totals and a configured factor of
0.5, `co2_avoided` computes `round(266 * 0.001 * 0.5, 2) = 0.13` for the
today site value — not 133.0 — because the code multiplies by the fixed
0.001 scale as well as the configured factor. -/
theorem co2_avoided_scenario_counterexample :
    co2_avoided (1/2) exTotalProduction =
      some [⟨[("deviceA", 2/25), ("deviceB", 1/20)], some (13/100), "co2avoided/today"⟩,
            ⟨[("deviceA", 0), ("deviceB", 0)], some 0, "co2avoided/month"⟩,
            ⟨[("deviceA", 0), ("deviceB", 0)], some 0, "co2avoided/year"⟩,
            ⟨[("deviceA", 0), ("deviceB", 0)], some 0, "co2avoided/lifetime"⟩]
      ∧ ((13 : ℚ)/100) ≠ 133 :=
  ⟨co2_avoided_scenario_eval, by norm_num⟩

/-- C9 amended: `co2_avoided` scales each period total linearly by
0.001 times the configured emissions factor, rounding `today` to 2 decimals
and truncating the longer periods to whole numbers (precision 0, which is
falsy, selects `int`); in the section 8 scenario with factor 0.5 the today
site value is 0.13, not 133.0. -/
theorem co2_avoided_amended :
    (dget (CO2_SETTINGS (1/2)) "today").map Co2Settings.precision = some 2
      ∧ (dget (CO2_SETTINGS (1/2)) "month").map Co2Settings.precision = some 0
      ∧ (dget (CO2_SETTINGS (1/2)) "year").map Co2Settings.precision = some 0
      ∧ (dget (CO2_SETTINGS (1/2)) "lifetime").map Co2Settings.precision = some 0
      ∧ (∀ v : ℚ, co2Scale ⟨1/1000, 2, 1/2⟩ v = pyRound (v * (1/1000) * (1/2)) 2)
      ∧ (co2_avoided (1/2) exTotalProduction).map
          (fun l => l.map (fun c => (c.topic, c.site))) =
        some [("co2avoided/today", some (13/100)), ("co2avoided/month", some 0),
              ("co2avoided/year", some 0), ("co2avoided/lifetime", some 0)] := by
  refine ⟨rfl, rfl, rfl, rfl, co2Scale_today_form, ?_⟩
  rw [co2_avoided_scenario_eval]
  rfl
